import Mathlib

/-!
Shallow embedding of the agent-invocation orchestrator of `Image2Code`
(`src/app/services/vlmAgent.ts`) and of the upload/cleanup part of the
request boundary (`src/app/routes/api.vlm.ts`).

Modelling conventions:
- JavaScript strings are Lean `String`s; `toLowerCase` is modelled
  per-character (`jsToLower`), `s.includes(t)` as list-infix on the
  character data (`includesStr`), `s.split("\n")` as a split on the
  newline character (`jsSplitNl`) and `arr.join("\n")` as `jsJoinNl`.
- Optional / possibly-`null` fields are `Option`; JavaScript truthiness
  of an optional string (`undefined`, `null` and `""` are falsy) is
  `otruthy`.
- `JSON.parse` of the worker's stdout is abstracted as an
  `Except String PythonAgentResponse` parameter of the scenario: `.ok`
  is a successful parse of the payload, `.error m` a parse failure whose
  exception message is `m`.
- The asynchronous resolution of `runPythonProcess` (the `resolved`
  flag guarding the timeout callback, the `Promise.all` continuation of
  the two stream drains, and the `error` event handler) is modelled as a
  fold over the list of events in their arrival order (`runProcEvents`).
- `randomUUID()` message ids are not modelled (each id is fresh and no
  specified property mentions them); the constant `role: "assistant"`
  field is kept.
-/

namespace VlmAgent

/-- Per-character lowercasing, the model of `errorMessage.toLowerCase()`. -/
def jsToLower (s : String) : String := ⟨s.data.map Char.toLower⟩

/-- Model of JavaScript `hay.includes(needle)`: contiguous substring test. -/
def includesStr (hay needle : String) : Bool := decide (needle.data <:+: hay.data)

/-- Model of JavaScript `s.startsWith(p)`. -/
def startsWithStr (s p : String) : Bool := decide (p.data <+: s.data)

/-- Model of `s.split("\n")` (split on the newline character). -/
def jsSplitNl (s : String) : List String := (s.data.splitOn '\n').map (fun l => ⟨l⟩)

/-- Model of `arr.join("\n")` on an array of strings. -/
def jsJoinNl (l : List String) : String := ⟨List.intercalate ['\n'] (l.map String.data)⟩

/-- Truthiness of an optional JavaScript string: `undefined` / `null` /
`""` are falsy, every other string is truthy. -/
def otruthy (o : Option String) : Bool :=
  match o with
  | some s => s != ""
  | none => false

/-- The `preview_image` object of the worker's success payload
(`PythonAgentSuccess["result"]["preview_image"]`). -/
structure PreviewImage where
  name : Option String := none
  dataUrl : String
  size : Option Nat := none
deriving Repr, DecidableEq

/-- The `result` object of a `PythonAgentSuccess` payload.
`reasoning_steps` is `string | string[]`, modelled as a sum; the
`string | null` field `final_html_web_path` is modelled as `Option`
(merging `null` and `undefined`, which no modelled code path
distinguishes). -/
structure PythonAgentResult where
  plan : Option String := none
  reasoning_steps : Option (Sum String (List String)) := none
  code : Option String := none
  feedback : Option String := none
  error : Option String := none
  logs : Option String := none
  preview_image : Option PreviewImage := none
  final_html_path : Option String := none
  final_html_web_path : Option String := none
deriving Repr, DecidableEq

/-- The worker's declared response envelope, `PythonAgentResponse`:
`success: true` carries a `result` object and an optional top-level
`logs` string; `success: false` carries an `error` reason and optional
`logs`. -/
inductive PythonAgentResponse where
  | success (result : PythonAgentResult) (logs : Option String)
  | failure (error : String) (logs : Option String)
deriving Repr, DecidableEq

/-- Appending stderr to an existing optional logs field, the model of
`logs ? logsText + newline + stderr : stderr` (lines 129-133 of
`vlmAgent.ts`). -/
def mergeLogs (logs : Option String) (stderr : String) : Option String :=
  match logs with
  | some l => if l == "" then some stderr else some (l ++ "\n" ++ stderr)
  | none => some stderr

/-- The `Promise.all` continuation of the two stream drains (lines
117-146): parse stdout, merge a non-empty stderr into the parsed
payload's logs, or produce the parse-failure envelope with the combined
raw output as logs. -/
def handleStreams (stdout stderr : String) (parse : Except String PythonAgentResponse) :
    PythonAgentResponse :=
  match parse with
  | .ok parsed =>
    if stderr == "" then parsed
    else
      match parsed with
      | .success r logs => .success { r with logs := mergeLogs r.logs stderr } logs
      | .failure e logs => .failure e (mergeLogs logs stderr)
  | .error msg =>
    let combinedLogs := String.intercalate "\n\n" ([stdout, stderr].filter (fun s => s != ""))
    .failure ("Unable to parse python output: " ++ msg)
      (if combinedLogs == "" then none else some combinedLogs)

/-- An asynchronous event that can resolve `runPythonProcess`'s promise:
the deadline timer firing, both output streams reaching end-of-stream
(with the raw buffers and the outcome of `JSON.parse` on stdout), or a
process `error` event. -/
inductive ProcEvent where
  | timerFired
  | streamsDone (stdout stderr : String) (parse : Except String PythonAgentResponse)
  | errored (msg : String)

/-- The response each event would resolve with, were it the first to fire. -/
def eventResult : ProcEvent → PythonAgentResponse
  | .timerFired => .failure "Python agent timed out." none
  | .streamsDone stdout stderr parse => handleStreams stdout stderr parse
  | .errored msg => .failure ("Python process error: " ++ msg) none

def isTimer : ProcEvent → Bool
  | .timerFired => true
  | _ => false

/-- State of one `runPythonProcess` invocation: the resolved value (if
any) and whether `subprocess.kill()` has been called. -/
structure ProcState where
  resolved : Option PythonAgentResponse
  killed : Bool
deriving Repr, DecidableEq

/-- One event handler firing: the `resolved` guard makes every handler a
no-op once the promise is settled; the timeout handler additionally
kills the subprocess. -/
def stepProc (st : ProcState) (ev : ProcEvent) : ProcState :=
  match st.resolved with
  | some _ => st
  | none => { resolved := some (eventResult ev), killed := st.killed || isTimer ev }

/-- Folding the event handlers over the events in arrival order. -/
def runProcEvents (evs : List ProcEvent) : ProcState :=
  evs.foldl stepProc { resolved := none, killed := false }

/-- Model of `runPythonProcess`: a synchronous `spawn` throw resolves
immediately with the spawn-failure envelope (lines 99-103); otherwise
the first arriving event resolves the promise. `none` means no event
ever fired (the promise never resolves). -/
def runPythonProcess (spawnResult : Except String Unit) (evs : List ProcEvent) :
    Option PythonAgentResponse :=
  match spawnResult with
  | .error msg => some (.failure ("Failed to start python process: " ++ msg) none)
  | .ok _ => (runProcEvents evs).resolved

/-- A display message (`AgentChatMessage`); the random `id` is omitted. -/
structure AgentAttachment where
  name : String
  type : String
  previewUrl : Option String := none
  size : Option Nat := none
deriving Repr, DecidableEq

structure AgentChatMessage where
  role : String := "assistant"
  variant : String
  content : String
  attachments : Option (List AgentAttachment) := none
  htmlPath : Option String := none
  htmlWebPath : Option String := none
deriving Repr, DecidableEq

structure AgentStatus where
  kind : String
  text : String
  detail : Option String := none
deriving Repr, DecidableEq

structure AgentRunResult where
  messages : List AgentChatMessage
  status : AgentStatus
  usedFallback : Bool
  finalHtmlPath : Option String := none
  finalHtmlWebPath : Option String := none
deriving Repr, DecidableEq

/-- Normalization of the `reasoning_steps` field (lines 182-186): an
array is used as-is, a non-empty string is split on newlines, anything
else yields `undefined`. -/
def reasoningStepsOf (rs : Option (Sum String (List String))) : Option (List String) :=
  match rs with
  | some (.inr arr) => some arr
  | some (.inl s) => if s.length > 0 then some (jsSplitNl s) else none
  | none => none

/-- Truthiness of `result.preview_image?.dataUrl`. -/
def previewTruthy (p : Option PreviewImage) : Bool :=
  match p with
  | some pi => pi.dataUrl != ""
  | none => false

/-- The `plan` push of `buildMessagesFromPython` (lines 173-180). -/
def planMsgs (result : PythonAgentResult) : List AgentChatMessage :=
  if otruthy result.plan then
    [{ variant := "accent",
       content := ("Here\x27s the plan I\x27ll follow:\n" ++ result.plan.getD "").trim }]
  else []

/-- The `reasoning_steps` push (lines 188-195). -/
def stepsMsgs (result : PythonAgentResult) : List AgentChatMessage :=
  match reasoningStepsOf result.reasoning_steps with
  | some steps =>
    if steps.length > 0 then
      [{ variant := "subtle", content := "Detailed steps:\n" ++ jsJoinNl steps }]
    else []
  | none => []

/-- The `code` push (lines 197-206). -/
def codeMsgs (result : PythonAgentResult) : List AgentChatMessage :=
  if otruthy result.code then
    [{ variant := "accent",
       content := "Generated Python snippet:\n" ++ (result.code.getD "").trim,
       htmlPath := result.final_html_path,
       htmlWebPath := result.final_html_web_path }]
  else []

/-- The `preview_image` push (lines 208-224). -/
def previewMsgs (result : PythonAgentResult) : List AgentChatMessage :=
  match result.preview_image with
  | some pi =>
    if pi.dataUrl != "" then
      [{ variant := "accent",
         content := "Here\x27s the rendered preview.",
         attachments := some [{ name := pi.name.getD "agent-preview.png",
                                type := "image",
                                previewUrl := some pi.dataUrl,
                                size := pi.size }] }]
    else []
  | none => []

/-- The `feedback` push (lines 226-234). -/
def feedbackMsgs (result : PythonAgentResult) : List AgentChatMessage :=
  if (result.feedback.getD "") != "" then
    [{ variant := "subtle", content := "Latest feedback: " ++ result.feedback.getD "" }]
  else []

/-- The `error` push (lines 236-244). -/
def errorMsgs (result : PythonAgentResult) : List AgentChatMessage :=
  if (result.error.getD "") != "" then
    [{ variant := "subtle",
       content := "Executor reported an issue: " ++ result.error.getD "" }]
  else []

/-- The sequence of conditional pushes of `buildMessagesFromPython`
(lines 173-244), written as a concatenation of the conditional singleton
lists in the same order. -/
def buildCore (result : PythonAgentResult) : List AgentChatMessage :=
  planMsgs result ++ stepsMsgs result ++ codeMsgs result ++ previewMsgs result
    ++ feedbackMsgs result ++ errorMsgs result

/-- Model of `buildMessagesFromPython` (lines 171-256): the conditional
pushes followed by the empty-list fallback message. -/
def buildMessagesFromPython (result : PythonAgentResult) : List AgentChatMessage :=
  let messages := buildCore result
  if messages.isEmpty then
    [{ variant := "subtle", content := "The agent completed without generating any updates." }]
  else messages

/-- The canned fallback code template of `fallbackMessages`. -/
def templateCode : String :=
  String.intercalate "\n"
    [ "from PIL import Image, ImageDraw",
      "",
      "# Mocked fallback pipelineâ€”replace with model outputs in production.",
      "img = Image.new(\x27RGB\x27, (800, 600), \x27white\x27)",
      "draw = ImageDraw.Draw(img)",
      "draw.text((40, 40), \x27Image2Code fallback render\x27, fill=\x27black\x27)",
      "img.save(\x27fallback-output.png\x27)" ]

/-- Model of `fallbackMessages` (lines 258-307): the fixed four-message
canned conversation. -/
def fallbackMessages (prompt : String) : AgentRunResult :=
  { messages :=
      [ { variant := "accent",
          content := "I received your request:\n\"" ++ prompt ++
            "\"\n\nHere\x27s a high-level plan:\n1. Break down the UI into key regions.\n2. Translate those into layout primitives.\n3. Map typography and colors from the input." },
        { variant := "subtle",
          content := "Detailed steps:\n- Analyze the primary call-to-action and hero layout.\n- Select component primitives (cards, list rows, nav bars).\n- Produce semantic HTML or React code with Tailwind annotations." },
        { variant := "accent",
          content := "Generated Python snippet:\n" ++ templateCode },
        { variant := "subtle",
          content := "Latest feedback: This is a mocked response path because the Python agent was unavailable. Swap in real model integration when the service is online." } ],
    status := { kind := "error",
                text := "Fallback pathway used because the Python VLM agent is unavailable." },
    usedFallback := true }

/-- Model of `shouldUseFallback` (lines 343-358). -/
def shouldUseFallback (errorMessage : String) : Bool :=
  let lower := jsToLower errorMessage
  if includesStr lower "failed to start python process" then true
  else if includesStr lower "python agent timed out" || includesStr lower "timed out" then true
  else if includesStr lower "unable to parse python output" then true
  else if includesStr lower "python process error" then true
  else false

/-- The pure tail of `runVlmAgent` (lines 312-341): how one resolved
`PythonAgentResponse` becomes the returned `AgentRunResult`. -/
def runVlmAgentWith (prompt : String) (pythonResult : PythonAgentResponse) : AgentRunResult :=
  match pythonResult with
  | .failure err _logs =>
    let errorMessage := err
    if shouldUseFallback errorMessage then fallbackMessages prompt
    else
      { messages := [],
        status := { kind := "error",
                    text := "The VLM agent could not complete the request.",
                    detail := some errorMessage },
        usedFallback := false }
  | .success result logs =>
    { messages := buildMessagesFromPython result,
      status := { kind := "success",
                  text := "VLM agent generated a fresh response.",
                  detail := match logs with
                            | some l => some l
                            | none => result.logs },
      usedFallback := false,
      finalHtmlPath := result.final_html_path,
      finalHtmlWebPath := result.final_html_web_path }

/-- Model of `runVlmAgent` over a scenario (spawn outcome plus event
arrival order); `none` when the underlying promise never resolves. -/
def runVlmAgent (prompt : String) (spawnResult : Except String Unit) (evs : List ProcEvent) :
    Option AgentRunResult :=
  (runPythonProcess spawnResult evs).map (runVlmAgentWith prompt)

end VlmAgent

namespace ApiVlm
open VlmAgent

/-- A file-system state: the multiset of existing file paths. -/
abbrev FS := List String

/-- One upload to stage: its destination path and the outcome of the
`writeFile` call (`.error` models a thrown exception). -/
structure StagedFile where
  path : String
  write : Except String Unit

/-- The staging loop of the `action` handler (lines 112-119 of
`api.vlm.ts`): each successful `writeFile` creates the file and pushes
its path onto `savedPaths`; a throwing write aborts the loop and the
exception propagates to the `catch`. Returns the saved paths, the
file-system state, and the propagated exception if any. -/
def stage (fs : FS) : List StagedFile → List String × FS × Option String
  | [] => ([], fs, none)
  | f :: rest =>
    match f.write with
    | .error e => ([], fs, some e)
    | .ok _ =>
      let r := stage (f.path :: fs) rest
      (f.path :: r.1, r.2.1, r.2.2)

/-- The HTTP response produced by the `action` handler after staging:
the JSON of the `AgentRunResult`, or the 500 envelope built in the
`catch` block. -/
inductive ActionResponse where
  | ok (result : AgentRunResult)
  | serverError (detail : String)
deriving Repr, DecidableEq

/-- Model of `rm(filePath, force)` with its errors ignored: every
occurrence of the path disappears from the file system. -/
def rmForce (fs : FS) (p : String) : FS := fs.filter (fun q => q != p)

/-- Outcome of one request: the response, the paths whose deletion the
`finally` block attempted, and the final file-system state. -/
structure ActionOutcome where
  response : ActionResponse
  deletedPaths : List String
  fs : FS

/-- Model of the try/catch/finally of the `action` handler (lines
105-148): stage the uploads, run the agent unless staging threw, and in
the `finally` block attempt `rm` on every saved path regardless of which
exit path is taken. `agentOutcome` is the outcome of `runVlmAgent`
(`.error` models a thrown exception). -/
def runAction (fs0 : FS) (files : List StagedFile)
    (agentOutcome : Except String AgentRunResult) : ActionOutcome :=
  let staged := stage fs0 files
  let savedPaths := staged.1
  let fs2 := savedPaths.foldl rmForce staged.2.1
  let response :=
    match staged.2.2 with
    | some e => ActionResponse.serverError e
    | none =>
      match agentOutcome with
      | .error e => ActionResponse.serverError e
      | .ok r => ActionResponse.ok r
  { response := response, deletedPaths := savedPaths, fs := fs2 }

end ApiVlm

namespace VlmAgent

/-- Does the primary diagnostic slot of the returned envelope
(`status.detail`) carry `s` as a substring? -/
def detailIncludes (res : AgentRunResult) (s : String) : Bool :=
  match res.status.detail with
  | some d => includesStr d s
  | none => false

lemma jsToLower_append (a b : String) : jsToLower (a ++ b) = jsToLower a ++ jsToLower b := by
  apply String.ext
  show (a.data ++ b.data).map Char.toLower =
    ((⟨a.data.map Char.toLower⟩ : String) ++ ⟨b.data.map Char.toLower⟩).data
  rw [String.data_append, List.map_append]

lemma includesStr_append_left (a b p : String) (h : p.data <+: a.data) :
    includesStr (a ++ b) p = true := by
  simp only [includesStr, decide_eq_true_eq, String.data_append]
  exact (h.trans (List.prefix_append a.data b.data)).isInfix

lemma includesStr_self_suffix (a p : String) : includesStr (a ++ p) p = true := by
  simp only [includesStr, decide_eq_true_eq, String.data_append]
  exact (List.suffix_append a.data p.data).isInfix

lemma includesStr_refl (p : String) : includesStr p p = true := by
  simp only [includesStr, decide_eq_true_eq]
  exact List.infix_refl p.data

lemma startsWithStr_append_left (a b p : String) (h : p.data <+: a.data) :
    startsWithStr (a ++ b) p = true := by
  simp only [startsWithStr, decide_eq_true_eq, String.data_append]
  exact h.trans (List.prefix_append a.data b.data)

lemma shouldUseFallback_eq_or (reason : String) :
    shouldUseFallback reason =
      (includesStr (jsToLower reason) "failed to start python process" ||
       includesStr (jsToLower reason) "python agent timed out" ||
       includesStr (jsToLower reason) "timed out" ||
       includesStr (jsToLower reason) "unable to parse python output" ||
       includesStr (jsToLower reason) "python process error") := by
  simp only [shouldUseFallback]
  cases h1 : includesStr (jsToLower reason) "failed to start python process" <;>
    cases h2 : includesStr (jsToLower reason) "python agent timed out" <;>
      cases h3 : includesStr (jsToLower reason) "timed out" <;>
        cases h4 : includesStr (jsToLower reason) "unable to parse python output" <;>
          cases h5 : includesStr (jsToLower reason) "python process error" <;> simp

lemma shouldUseFallback_spawn (m : String) :
    shouldUseFallback ("Failed to start python process: " ++ m) = true := by
  rw [shouldUseFallback_eq_or, jsToLower_append]
  have h : includesStr (jsToLower "Failed to start python process: " ++ jsToLower m)
      "failed to start python process" = true :=
    includesStr_append_left _ _ _ (by decide)
  simp [h]

lemma shouldUseFallback_timeout : shouldUseFallback "Python agent timed out." = true := by decide

lemma shouldUseFallback_parse (m : String) :
    shouldUseFallback ("Unable to parse python output: " ++ m) = true := by
  rw [shouldUseFallback_eq_or, jsToLower_append]
  have h : includesStr (jsToLower "Unable to parse python output: " ++ jsToLower m)
      "unable to parse python output" = true :=
    includesStr_append_left _ _ _ (by decide)
  simp [h]

lemma shouldUseFallback_procErr (m : String) :
    shouldUseFallback ("Python process error: " ++ m) = true := by
  rw [shouldUseFallback_eq_or, jsToLower_append]
  have h : includesStr (jsToLower "Python process error: " ++ jsToLower m)
      "python process error" = true :=
    includesStr_append_left _ _ _ (by decide)
  simp [h]

lemma stepProc_resolved (st : ProcState) (e : ProcEvent) (h : st.resolved.isSome) :
    stepProc st e = st := by
  obtain ⟨v, hv⟩ := Option.isSome_iff_exists.mp h
  simp [stepProc, hv]

lemma foldl_stepProc_resolved (evs : List ProcEvent) (st : ProcState)
    (h : st.resolved.isSome) : evs.foldl stepProc st = st := by
  induction evs with
  | nil => rfl
  | cons e rest ih => rw [List.foldl_cons, stepProc_resolved st e h, ih]

lemma jsJoinNl_jsSplitNl (s : String) : jsJoinNl (jsSplitNl s) = s := by
  apply String.ext
  show List.intercalate ['\n']
      (((s.data.splitOn '\n').map (fun l => (⟨l⟩ : String))).map String.data) = s.data
  rw [List.map_map]
  have h : (String.data ∘ fun l : List Char => (⟨l⟩ : String)) = id := rfl
  rw [h, List.map_id]
  exact List.intercalate_splitOn s.data '\n'

lemma jsSplitNl_ne_nil (s : String) : jsSplitNl s ≠ [] := by
  simp only [jsSplitNl, ne_eq, List.map_eq_nil_iff]
  simp only [List.splitOn]
  exact List.splitOnP_ne_nil _ _

lemma planMsgs_nil (r : PythonAgentResult) (h : otruthy r.plan = false) : planMsgs r = [] := by
  simp [planMsgs, h]

lemma stepsMsgs_nil (r : PythonAgentResult)
    (h : reasoningStepsOf r.reasoning_steps = none ∨
      reasoningStepsOf r.reasoning_steps = some []) : stepsMsgs r = [] := by
  rcases h with h | h <;> simp [stepsMsgs, h]

lemma codeMsgs_nil (r : PythonAgentResult) (h : otruthy r.code = false) : codeMsgs r = [] := by
  simp [codeMsgs, h]

lemma previewMsgs_nil (r : PythonAgentResult) (h : previewTruthy r.preview_image = false) :
    previewMsgs r = [] := by
  unfold previewMsgs
  cases hp : r.preview_image with
  | none => rfl
  | some pi =>
    rw [hp] at h
    simp only [previewTruthy] at h
    simp [h]

lemma feedbackMsgs_nil (r : PythonAgentResult) (h : r.feedback.getD "" = "") :
    feedbackMsgs r = [] := by
  simp [feedbackMsgs, h]

lemma errorMsgs_nil (r : PythonAgentResult) (h : r.error.getD "" = "") : errorMsgs r = [] := by
  simp [errorMsgs, h]

lemma buildMessagesFromPython_ne_nil (r : PythonAgentResult) :
    buildMessagesFromPython r ≠ [] := by
  unfold buildMessagesFromPython
  cases hb : buildCore r with
  | nil => simp
  | cons a t => simp

end VlmAgent

namespace ApiVlm

lemma not_mem_rmForce (fs : FS) (p : String) : p ∉ rmForce fs p := by
  intro h
  have := (List.mem_filter.mp h).2
  simp at this

lemma not_mem_rmForce_of_not_mem (fs : FS) (p q : String) (h : q ∉ fs) :
    q ∉ rmForce fs p := fun hm => h (List.mem_filter.mp hm).1

lemma not_mem_foldl_rmForce_of_not_mem (l : List String) (fs : FS) (p : String)
    (h : p ∉ fs) : p ∉ l.foldl rmForce fs := by
  induction l generalizing fs with
  | nil => exact h
  | cons q rest ih => exact ih _ (not_mem_rmForce_of_not_mem fs q p h)

lemma not_mem_foldl_rmForce_of_mem (l : List String) (fs : FS) (p : String)
    (h : p ∈ l) : p ∉ l.foldl rmForce fs := by
  induction l generalizing fs with
  | nil => cases h
  | cons q rest ih =>
    rw [List.foldl_cons]
    rcases List.mem_cons.mp h with heq | hmem
    · subst heq
      exact not_mem_foldl_rmForce_of_not_mem rest (rmForce fs p) p (not_mem_rmForce fs p)
    · exact ih _ hmem

end ApiVlm

open VlmAgent ApiVlm

/-- C2 counterexample: the claim says a reason the worker itself reported
is never answered with the canned fallback, but the substring-based
classifier sends the worker-declared reason "Request timed out." to the
canned fallback (it contains "timed out"). -/
theorem C2_counterexample :
    handleStreams "raw" ""
        (Except.ok (PythonAgentResponse.failure "Request timed out." none)) =
      PythonAgentResponse.failure "Request timed out." none ∧
    shouldUseFallback "Request timed out." = true ∧
    (runVlmAgentWith "p" (PythonAgentResponse.failure "Request timed out." none)).usedFallback =
      true :=
  ⟨rfl, by decide, rfl⟩

/-- C2 (amended): the four infrastructure-generated failure reasons
(spawn failure, timeout, parse failure, generic process error) are always
classified soft, and an arbitrary reason is classified soft exactly when
its lowercased text contains one of the five marker substrings — so a
worker-declared reason is hard only when it contains none of them. -/
theorem C2_fallback_classification (spawnMsg parseMsg procMsg reason : String) :
    shouldUseFallback ("Failed to start python process: " ++ spawnMsg) = true ∧
    shouldUseFallback "Python agent timed out." = true ∧
    shouldUseFallback ("Unable to parse python output: " ++ parseMsg) = true ∧
    shouldUseFallback ("Python process error: " ++ procMsg) = true ∧
    shouldUseFallback reason =
      (includesStr (jsToLower reason) "failed to start python process" ||
       includesStr (jsToLower reason) "python agent timed out" ||
       includesStr (jsToLower reason) "timed out" ||
       includesStr (jsToLower reason) "unable to parse python output" ||
       includesStr (jsToLower reason) "python process error") :=
  ⟨shouldUseFallback_spawn spawnMsg, shouldUseFallback_timeout,
   shouldUseFallback_parse parseMsg, shouldUseFallback_procErr procMsg,
   shouldUseFallback_eq_or reason⟩

/-- C3: for every non-empty prompt, when the worker process cannot start,
`runVlmAgent` returns the canned fallback: `usedFallback = true`, exactly
4 messages, the fixed error status text, and a first message starting
with "I received your request:". -/
theorem C3_spawn_failure_canned_fallback (prompt msg : String) (_hp : prompt ≠ "") :
    runVlmAgent prompt (Except.error msg) [] = some (fallbackMessages prompt) ∧
    (fallbackMessages prompt).usedFallback = true ∧
    (fallbackMessages prompt).messages.length = 4 ∧
    (fallbackMessages prompt).status =
      { kind := "error",
        text := "Fallback pathway used because the Python VLM agent is unavailable." } ∧
    ((fallbackMessages prompt).messages.head?.map
      (fun m => startsWithStr m.content "I received your request:")) = some true := by
  refine ⟨?_, rfl, rfl, rfl, ?_⟩
  · show some (runVlmAgentWith prompt
      (PythonAgentResponse.failure ("Failed to start python process: " ++ msg) none)) =
      some (fallbackMessages prompt)
    simp [runVlmAgentWith, shouldUseFallback_spawn msg]
  · show some (startsWithStr ("I received your request:\n\"" ++ (prompt ++
      "\"\n\nHere\x27s a high-level plan:\n1. Break down the UI into key regions.\n2. Translate those into layout primitives.\n3. Map typography and colors from the input."))
      "I received your request:") = some true
    rw [startsWithStr_append_left _ _ _ (by decide)]

/-- C3 witness at the claim's concrete scenario. -/
theorem C3_witness :
    ("Build a login form" ≠ "") ∧
    (runVlmAgent "Build a login form" (Except.error "spawn python ENOENT") [] =
        some (fallbackMessages "Build a login form") ∧
      (fallbackMessages "Build a login form").usedFallback = true ∧
      (fallbackMessages "Build a login form").messages.length = 4 ∧
      (fallbackMessages "Build a login form").status =
        { kind := "error",
          text := "Fallback pathway used because the Python VLM agent is unavailable." } ∧
      ((fallbackMessages "Build a login form").messages.head?.map
        (fun m => startsWithStr m.content "I received your request:")) = some true) :=
  ⟨by decide, C3_spawn_failure_canned_fallback "Build a login form" "spawn python ENOENT"
    (by decide)⟩

/-- C4: when the deadline timer fires before any other resolution event,
the subprocess is killed, the invocation resolves with the distinguishing
timeout reason, that reason is classified soft, and the returned result
is the canned fallback — regardless of any later events. -/
theorem C4_timeout_kills_and_falls_back (prompt : String) (rest : List ProcEvent) :
    (runProcEvents (ProcEvent.timerFired :: rest)).killed = true ∧
    (runProcEvents (ProcEvent.timerFired :: rest)).resolved =
      some (PythonAgentResponse.failure "Python agent timed out." none) ∧
    shouldUseFallback "Python agent timed out." = true ∧
    runVlmAgent prompt (Except.ok ()) (ProcEvent.timerFired :: rest) =
      some (fallbackMessages prompt) := by
  have hstep : stepProc { resolved := none, killed := false } ProcEvent.timerFired =
      { resolved := some (PythonAgentResponse.failure "Python agent timed out." none),
        killed := true } := rfl
  have hfold : runProcEvents (ProcEvent.timerFired :: rest) =
      { resolved := some (PythonAgentResponse.failure "Python agent timed out." none),
        killed := true } := by
    show rest.foldl stepProc (stepProc { resolved := none, killed := false }
      ProcEvent.timerFired) = _
    rw [hstep]
    exact foldl_stepProc_resolved rest _ rfl
  refine ⟨by rw [hfold], by rw [hfold], shouldUseFallback_timeout, ?_⟩
  show ((runProcEvents (ProcEvent.timerFired :: rest)).resolved.map
    (runVlmAgentWith prompt)) = some (fallbackMessages prompt)
  rw [hfold]
  show some (runVlmAgentWith prompt
    (PythonAgentResponse.failure "Python agent timed out." none)) = _
  simp [runVlmAgentWith, shouldUseFallback_timeout]

/-- C8: every failure classified hard yields an empty message list, an
error status whose detail is the worker's own failure reason verbatim,
and `usedFallback = false`. -/
theorem C8_hard_failure_surfaced (prompt reason : String) (logs : Option String)
    (h : shouldUseFallback reason = false) :
    runVlmAgentWith prompt (PythonAgentResponse.failure reason logs) =
      { messages := [],
        status := { kind := "error",
                    text := "The VLM agent could not complete the request.",
                    detail := some reason },
        usedFallback := false } := by
  simp [runVlmAgentWith, h]

/-- C8 witness at a concrete worker-declared reason. -/
theorem C8_witness :
    shouldUseFallback "The worker rejected the request." = false ∧
    runVlmAgentWith "p"
        (PythonAgentResponse.failure "The worker rejected the request." none) =
      { messages := [],
        status := { kind := "error",
                    text := "The VLM agent could not complete the request.",
                    detail := some "The worker rejected the request." },
        usedFallback := false } :=
  ⟨by decide, C8_hard_failure_surfaced "p" "The worker rejected the request." none (by decide)⟩

/-- C10: the first event to fire (streams end-of-stream, deadline timer,
or process error) determines the resolved value of `runPythonProcess`,
and every later event — including any appended after resolution — leaves
the resolved state unchanged. -/
theorem C10_resolves_exactly_once (e : ProcEvent) (rest more : List ProcEvent) :
    (runProcEvents (e :: rest)).resolved = some (eventResult e) ∧
    runProcEvents ((e :: rest) ++ more) = runProcEvents (e :: rest) ∧
    runPythonProcess (Except.ok ()) (e :: rest) = some (eventResult e) := by
  have hstep : stepProc { resolved := none, killed := false } e =
      { resolved := some (eventResult e), killed := isTimer e } := by
    simp [stepProc]
  have hfold : runProcEvents (e :: rest) =
      { resolved := some (eventResult e), killed := isTimer e } := by
    show rest.foldl stepProc (stepProc { resolved := none, killed := false } e) = _
    rw [hstep]
    exact foldl_stepProc_resolved rest _ rfl
  refine ⟨by rw [hfold], ?_, by show (runProcEvents (e :: rest)).resolved = _; rw [hfold]⟩
  show ((e :: rest) ++ more).foldl stepProc { resolved := none, killed := false } = _
  rw [List.foldl_append]
  show more.foldl stepProc (runProcEvents (e :: rest)) = _
  rw [hfold]
  exact foldl_stepProc_resolved more _ rfl

set_option maxRecDepth 8192 in
/-- C1 counterexample: on a parse failure with non-empty stderr the
returned envelope is the canned fallback, whose `status.detail` is absent
and whose message contents do not contain the stderr text — so the
diagnostic text does not survive every outcome kind as claimed. -/
theorem C1_counterexample :
    runVlmAgentWith "p" (handleStreams "oops" "warn" (Except.error "bad json")) =
      fallbackMessages "p" ∧
    (fallbackMessages "p").status.detail = none ∧
    ((fallbackMessages "p").messages.all (fun m => !(includesStr m.content "warn"))) = true :=
  ⟨rfl, rfl, by decide⟩

/-- C1 (amended): diagnostic-channel text reaches the returned envelope
only on the parse-success path with a worker-declared success whose
top-level `logs` field is absent: there a non-empty stderr is appended to
the payload's `logs` and surfaces as a substring of `status.detail`. On
the other outcome kinds (parse failure, worker-declared hard failure,
timeout, spawn failure, process error) the returned `AgentRunResult`
drops the stderr text. -/
theorem C1_stderr_in_success_detail (prompt stdout stderr : String)
    (r : PythonAgentResult) (h : stderr ≠ "") :
    detailIncludes
      (runVlmAgentWith prompt
        (handleStreams stdout stderr (Except.ok (PythonAgentResponse.success r none))))
      stderr = true := by
  have hne : (stderr == "") = false := by
    cases hb : stderr == "" with
    | false => rfl
    | true => exact absurd (by simpa using hb) h
  simp only [handleStreams, hne, Bool.false_eq_true, if_false]
  cases hl : r.logs with
  | none =>
    simp [runVlmAgentWith, detailIncludes, mergeLogs, hl, includesStr_refl]
  | some l =>
    cases hle : l == "" with
    | true =>
      simp [runVlmAgentWith, detailIncludes, mergeLogs, hl, hle, includesStr_refl]
    | false =>
      simp [runVlmAgentWith, detailIncludes, mergeLogs, hl, hle, includesStr_self_suffix]

/-- C1 witness. -/
theorem C1_witness :
    ("warn" ≠ "") ∧
    detailIncludes
      (runVlmAgentWith "p"
        (handleStreams "out" "warn"
          (Except.ok (PythonAgentResponse.success {} none))))
      "warn" = true :=
  ⟨by decide, C1_stderr_in_success_detail "p" "out" "warn" {} (by decide)⟩

/-- C5: a well-formed success payload in which only `code` is populated
normalizes to exactly one accent message containing the trimmed snippet
and carrying the artifact paths through unchanged. -/
theorem C5_code_only_single_message (r : PythonAgentResult) (c : String)
    (hplan : otruthy r.plan = false)
    (hsteps : reasoningStepsOf r.reasoning_steps = none ∨
      reasoningStepsOf r.reasoning_steps = some [])
    (hcode : r.code = some c) (hc : c ≠ "")
    (hprev : previewTruthy r.preview_image = false)
    (hfb : r.feedback.getD "" = "")
    (herr : r.error.getD "" = "") :
    buildMessagesFromPython r =
      [{ variant := "accent",
         content := "Generated Python snippet:\n" ++ c.trim,
         htmlPath := r.final_html_path,
         htmlWebPath := r.final_html_web_path }] := by
  have hcodes : codeMsgs r =
      [{ variant := "accent",
         content := "Generated Python snippet:\n" ++ c.trim,
         htmlPath := r.final_html_path,
         htmlWebPath := r.final_html_web_path }] := by
    have hc2 : otruthy (some c) = true := by simpa [otruthy] using hc
    simp [codeMsgs, hcode, hc2]
  rw [buildMessagesFromPython, buildCore, planMsgs_nil r hplan, stepsMsgs_nil r hsteps,
    hcodes, previewMsgs_nil r hprev, feedbackMsgs_nil r hfb, errorMsgs_nil r herr]
  rfl

/-- C5 witness. -/
theorem C5_witness :
    (otruthy ({ code := some " x " } : PythonAgentResult).plan = false) ∧
    (reasoningStepsOf ({ code := some " x " } : PythonAgentResult).reasoning_steps = none ∨
      reasoningStepsOf ({ code := some " x " } : PythonAgentResult).reasoning_steps = some []) ∧
    (({ code := some " x " } : PythonAgentResult).code = some " x ") ∧
    (" x " ≠ "") ∧
    (previewTruthy ({ code := some " x " } : PythonAgentResult).preview_image = false) ∧
    (({ code := some " x " } : PythonAgentResult).feedback.getD "" = "") ∧
    (({ code := some " x " } : PythonAgentResult).error.getD "" = "") ∧
    buildMessagesFromPython ({ code := some " x " } : PythonAgentResult) =
      [{ variant := "accent",
         content := "Generated Python snippet:\n" ++ " x ".trim,
         htmlPath := none,
         htmlWebPath := none }] :=
  ⟨rfl, Or.inl rfl, rfl, by decide, rfl, rfl, rfl,
   C5_code_only_single_message { code := some " x " } " x " rfl (Or.inl rfl) rfl (by decide)
     rfl rfl rfl⟩

/-- C6: a well-formed success payload with all normalizable fields empty
or absent yields exactly one subtle completed-without-updates message,
and the message list of any declared success is never empty. -/
theorem C6_empty_payload_fallback_message (r : PythonAgentResult)
    (hplan : otruthy r.plan = false)
    (hsteps : reasoningStepsOf r.reasoning_steps = none ∨
      reasoningStepsOf r.reasoning_steps = some [])
    (hcode : otruthy r.code = false)
    (hprev : previewTruthy r.preview_image = false)
    (hfb : r.feedback.getD "" = "")
    (herr : r.error.getD "" = "") :
    buildMessagesFromPython r =
      [{ variant := "subtle",
         content := "The agent completed without generating any updates." }] ∧
    ∀ (prompt : String) (r2 : PythonAgentResult) (logs : Option String),
      (runVlmAgentWith prompt (PythonAgentResponse.success r2 logs)).messages ≠ [] := by
  constructor
  · rw [buildMessagesFromPython, buildCore, planMsgs_nil r hplan, stepsMsgs_nil r hsteps,
      codeMsgs_nil r hcode, previewMsgs_nil r hprev, feedbackMsgs_nil r hfb,
      errorMsgs_nil r herr]
    rfl
  · intro prompt r2 logs
    show buildMessagesFromPython r2 ≠ []
    exact buildMessagesFromPython_ne_nil r2

/-- C6 witness. -/
theorem C6_witness :
    (otruthy ({} : PythonAgentResult).plan = false) ∧
    (reasoningStepsOf ({} : PythonAgentResult).reasoning_steps = none ∨
      reasoningStepsOf ({} : PythonAgentResult).reasoning_steps = some []) ∧
    (otruthy ({} : PythonAgentResult).code = false) ∧
    (previewTruthy ({} : PythonAgentResult).preview_image = false) ∧
    (({} : PythonAgentResult).feedback.getD "" = "") ∧
    (({} : PythonAgentResult).error.getD "" = "") ∧
    (buildMessagesFromPython ({} : PythonAgentResult) =
      [{ variant := "subtle",
         content := "The agent completed without generating any updates." }] ∧
    ∀ (prompt : String) (r2 : PythonAgentResult) (logs : Option String),
      (runVlmAgentWith prompt (PythonAgentResponse.success r2 logs)).messages ≠ []) :=
  ⟨rfl, Or.inl rfl, rfl, rfl, rfl, rfl,
   C6_empty_payload_fallback_message {} rfl (Or.inl rfl) rfl rfl rfl rfl⟩

/-- C7 counterexample: for the non-empty step list `[""]`, the sequence
serialization produces a steps message while the newline-joined text
serialization (the empty string) produces none — the normalized outputs
differ, refuting the round-trip claim for every non-empty list. -/
theorem C7_counterexample :
    buildMessagesFromPython { reasoning_steps := some (Sum.inr [""]) } ≠
    buildMessagesFromPython { reasoning_steps := some (Sum.inl (jsJoinNl [""])) } := by
  decide

/-- C7 (amended): for every non-empty list of step strings whose
newline-join is non-empty, normalizing the list and normalizing the
joined text block produce identical display messages. -/
theorem C7_steps_round_trip (l : List String) (h1 : l ≠ []) (h2 : jsJoinNl l ≠ "") :
    buildMessagesFromPython { reasoning_steps := some (Sum.inr l) } =
    buildMessagesFromPython { reasoning_steps := some (Sum.inl (jsJoinNl l)) } := by
  have hlen : l.length > 0 := List.length_pos.mpr h1
  have hslen : (jsJoinNl l).length > 0 := by
    have hd : (jsJoinNl l).data ≠ [] := fun hdata => h2 (String.ext hdata)
    exact List.length_pos.mpr hd
  have hsplitlen : (jsSplitNl (jsJoinNl l)).length > 0 :=
    List.length_pos.mpr (jsSplitNl_ne_nil (jsJoinNl l))
  have hL : stepsMsgs { reasoning_steps := some (Sum.inr l) } =
      [{ variant := "subtle", content := "Detailed steps:\n" ++ jsJoinNl l }] := by
    simp [stepsMsgs, reasoningStepsOf, hlen]
  have hR : stepsMsgs { reasoning_steps := some (Sum.inl (jsJoinNl l)) } =
      [{ variant := "subtle", content := "Detailed steps:\n" ++ jsJoinNl l }] := by
    simp [stepsMsgs, reasoningStepsOf, hslen, hsplitlen, jsJoinNl_jsSplitNl]
  unfold buildMessagesFromPython buildCore
  rw [hL, hR]
  simp [planMsgs, codeMsgs, previewMsgs, feedbackMsgs, errorMsgs, otruthy]

/-- C7 witness. -/
theorem C7_witness :
    ((["a", "b"] : List String) ≠ []) ∧
    (jsJoinNl ["a", "b"] ≠ "") ∧
    buildMessagesFromPython { reasoning_steps := some (Sum.inr ["a", "b"]) } =
      buildMessagesFromPython { reasoning_steps := some (Sum.inl (jsJoinNl ["a", "b"])) } :=
  ⟨by decide, by decide, C7_steps_round_trip ["a", "b"] (by decide) (by decide)⟩

/-- C9: deletion is attempted for exactly the staged paths on every exit
path of the action handler (agent returned or threw, staging threw), and
no staged file survives in the final file-system state. -/
theorem C9_staged_files_cleaned (fs0 : FS) (files : List StagedFile)
    (agentOutcome : Except String AgentRunResult) :
    (runAction fs0 files agentOutcome).deletedPaths = (stage fs0 files).1 ∧
    ∀ p, p ∈ (stage fs0 files).1 → p ∉ (runAction fs0 files agentOutcome).fs := by
  refine ⟨rfl, fun p hp => ?_⟩
  show p ∉ (stage fs0 files).1.foldl rmForce (stage fs0 files).2.1
  exact not_mem_foldl_rmForce_of_mem _ _ _ hp

/-- C9 witness. -/
theorem C9_witness :
    ("a" ∈ (stage ["keep"] [⟨"a", Except.ok ()⟩, ⟨"b", Except.ok ()⟩]).1) ∧
    "a" ∉ (runAction ["keep"] [⟨"a", Except.ok ()⟩, ⟨"b", Except.ok ()⟩]
      (Except.ok (fallbackMessages "p"))).fs :=
  ⟨by decide,
   (C9_staged_files_cleaned ["keep"] [⟨"a", Except.ok ()⟩, ⟨"b", Except.ok ()⟩]
     (Except.ok (fallbackMessages "p"))).2 "a" (by decide)⟩
